import Mathlib

/-!
Verification of the CodeGoldenAI plan-ledger and access-gate component.

The definitions below are a shallow embedding of the in-memory plan
ledger of the backend (the `upgradeRequests` array, the `userPlans`
object, the `/api/me`, `/api/submit-upgrade`, `/api/admin/requests`,
`/api/admin/approve`, `/api/admin/decline` handlers and the
`requirePlan` middleware).  Plans are the JavaScript strings stored in
the object; timestamps are naturals (milliseconds); the JavaScript
truthiness of `planData.expiry` (null and 0 are falsy) and the
semantics of `>=` against `undefined` (always false) are modelled
explicitly.
-/

namespace CodeGoldenAI

/-- A stored plan record, as in `userPlans[email] = { plan, expiry }`.
`expiry` is `none` for JavaScript `null` (non-expiring). -/
structure UserPlanRecord where
  plan : String
  expiry : Option Nat
deriving Repr, DecidableEq

/-- An upgrade request, as pushed by `/api/submit-upgrade`:
`{ email, plan }`.  The code keeps no status field: a request is
pending exactly while it sits in the `upgradeRequests` array, and is
resolved by being removed from it. -/
structure UpgradeRequest where
  email : String
  plan : String
deriving Repr, DecidableEq

/-- The process-wide mutable state: the `upgradeRequests` array and the
`userPlans` object (modelled as an association list; assignment
prepends, lookup takes the first binding). -/
structure LedgerState where
  upgradeRequests : List UpgradeRequest
  userPlans : List (String × UserPlanRecord)
deriving Repr, DecidableEq

/-- Property lookup `userPlans[email]`: first binding wins. -/
def lookupPlan : List (String × UserPlanRecord) → String → Option UserPlanRecord
  | [], _ => none
  | (k, v) :: rest, e => if k = e then some v else lookupPlan rest e

/-- The approval duration in milliseconds: 30 * 24 * 60 * 60 * 1000. -/
def thirtyDays : Nat := 30 * 24 * 60 * 60 * 1000

/-- The test `planData.expiry && now > planData.expiry` from `/api/me`:
a null expiry is falsy, and so is the number 0. -/
def isExpired (pd : UserPlanRecord) (now : Nat) : Bool :=
  match pd.expiry with
  | none => false
  | some e => e != 0 && decide (e < now)

/-- The `/api/me` read: if the record is absent, or present with a
truthy expiry that `now` has passed, store `{ plan: "Free", expiry:
null }` and use it; otherwise use the stored record.  Returns the
plan reported to the client together with the updated state. -/
def getEffectiveTier (s : LedgerState) (email : String) (now : Nat) :
    String × LedgerState :=
  match lookupPlan s.userPlans email with
  | none =>
      ("Free", { s with userPlans := (email, ⟨"Free", none⟩) :: s.userPlans })
  | some pd =>
      if isExpired pd now then
        ("Free", { s with userPlans := (email, ⟨"Free", none⟩) :: s.userPlans })
      else
        (pd.plan, s)

/-- The `/api/submit-upgrade` mutation: `upgradeRequests.push({ email,
plan })`.  The handler performs no validation of `plan` and never
touches `userPlans`. -/
def submitUpgrade (s : LedgerState) (email plan : String) : LedgerState :=
  { s with upgradeRequests := s.upgradeRequests ++ [⟨email, plan⟩] }

/-- The `/api/admin/requests` read: the whole `upgradeRequests` array,
in insertion order. -/
def listPending (s : LedgerState) : List UpgradeRequest :=
  s.upgradeRequests

/-- The `/api/admin/approve` mutation: `userPlans[email] = { plan,
expiry: Date.now() + 30 days }` followed by `upgradeRequests =
upgradeRequests.filter((r) => r.email !== email)`. -/
def approve (s : LedgerState) (email plan : String) (now : Nat) : LedgerState :=
  { upgradeRequests := s.upgradeRequests.filter (fun r => r.email ≠ email),
    userPlans := (email, ⟨plan, some (now + thirtyDays)⟩) :: s.userPlans }

/-- The `/api/admin/decline` mutation: `upgradeRequests =
upgradeRequests.filter((r) => r.email !== email)`; `userPlans` is not
touched. -/
def decline (s : LedgerState) (email : String) : LedgerState :=
  { s with upgradeRequests := s.upgradeRequests.filter (fun r => r.email ≠ email) }

/-- The `allowed` table inside `requirePlan`; an unknown plan string
indexes to JavaScript `undefined`, modelled as `none`. -/
def allowedRank (p : String) : Option Nat :=
  if p = "Free" then some 1
  else if p = "Plus" then some 2
  else if p = "Pro" then some 3
  else none

/-- JavaScript `a >= b` where either operand may be `undefined`: any
comparison against `undefined` yields false. -/
def jsGE : Option Nat → Option Nat → Bool
  | some a, some b => decide (b ≤ a)
  | _, _ => false

/-- Outcome of the access gate. -/
inductive AccessResult
  | Allowed
  | Denied
deriving Repr, DecidableEq

/-- The `requirePlan(minPlan)` middleware: read `userPlans[email] ||
{ plan: "Free" }` and allow iff `allowed[planData.plan] >=
allowed[minPlan]`.  Note that it never reads the clock or the expiry
field. -/
def checkAccess (s : LedgerState) (email minPlan : String) : AccessResult :=
  let pd := (lookupPlan s.userPlans email).getD ⟨"Free", none⟩
  if jsGE (allowedRank pd.plan) (allowedRank minPlan) then
    AccessResult.Allowed
  else
    AccessResult.Denied

/-- Client-visible outcome of a ledger HTTP handler.  The error
taxonomy of the design (`Forbidden`, `RequestNotFound`, `InvalidTier`)
is included so that theorems can state which outcomes the code can and
cannot produce. -/
inductive ApiOutcome
  | Success
  | Forbidden
  | RequestNotFound
  | InvalidTier
deriving Repr, DecidableEq

/-- An admin request as the handlers receive it: the body fields the
code reads (`email`, `plan`) together with whatever credential the
caller presented (header, token, …).  The handlers in the code read
only the body fields. -/
structure AdminRequest where
  email : String
  plan : String
  presentedSecret : Option String
deriving Repr, DecidableEq

/-- The full `/api/admin/approve` handler: it unconditionally performs
the ledger mutation and responds `{ success: true }`; no branch reads
a credential or checks for a pending request. -/
def approveHandler (req : AdminRequest) (s : LedgerState) (now : Nat) :
    ApiOutcome × LedgerState :=
  (ApiOutcome.Success, approve s req.email req.plan now)

/-- The full `/api/admin/decline` handler: it unconditionally performs
the ledger mutation and responds `{ success: true }`. -/
def declineHandler (req : AdminRequest) (s : LedgerState) :
    ApiOutcome × LedgerState :=
  (ApiOutcome.Success, decline s req.email)

/-- The `/api/submit-upgrade` handler for a logged-in user: it
unconditionally pushes the request and responds `{ success: true }`. -/
def submitHandler (s : LedgerState) (email plan : String) :
    ApiOutcome × LedgerState :=
  (ApiOutcome.Success, submitUpgrade s email plan)

/-- Rank of a tier in the total order of the design, Free < Plus < Pro.
Written from the words of the design document, to compare the access
gate against; tiers outside the order get rank 0. -/
def specTierRank (t : String) : Nat :=
  if t = "Free" then 1
  else if t = "Plus" then 2
  else if t = "Pro" then 3
  else 0

/-- Helper: a request list from which every entry with a given email
was removed by a filter contains no entry with that email. -/
theorem filter_email_of_removed (l : List UpgradeRequest) (u : String) :
    List.filter (fun r => r.email = u) (List.filter (fun r => r.email ≠ u) l) = [] := by
  induction l with
  | nil => rfl
  | cons a l ih =>
      by_cases h : a.email = u <;> simp [List.filter, h, ih]

end CodeGoldenAI

namespace CodeGoldenAI

/-- Claim C1: `getEffectiveTier` is the normalizing read.  With no
stored record it returns Free and stores a Free record; with a stored
record whose (positive timestamp) expiry lies in the past it resets
the record to Free with expiry cleared and returns Free; with an
unexpired record (no expiry, or expiry not yet passed) it returns the
stored tier and leaves the state unchanged. -/
theorem getEffectiveTier_normalizing_read (s : LedgerState) (u : String) (now : Nat) :
    (lookupPlan s.userPlans u = none →
      (getEffectiveTier s u now).1 = "Free" ∧
      lookupPlan (getEffectiveTier s u now).2.userPlans u = some ⟨"Free", none⟩) ∧
    (∀ pd e, lookupPlan s.userPlans u = some pd → pd.expiry = some e →
      0 < e → e < now →
      (getEffectiveTier s u now).1 = "Free" ∧
      lookupPlan (getEffectiveTier s u now).2.userPlans u = some ⟨"Free", none⟩) ∧
    (∀ pd, lookupPlan s.userPlans u = some pd →
      (pd.expiry = none ∨ ∃ e, pd.expiry = some e ∧ now ≤ e) →
      getEffectiveTier s u now = (pd.plan, s)) := by
  refine ⟨fun h => ?_, fun pd e hpd he h0 hlt => ?_, fun pd hpd hunexp => ?_⟩
  · simp [getEffectiveTier, h, lookupPlan]
  · have hexp : isExpired pd now = true := by
      simp [isExpired, he]
      omega
    simp [getEffectiveTier, hpd, hexp, lookupPlan]
  · have hexp : isExpired pd now = false := by
      rcases hunexp with h | ⟨e, he, hle⟩
      · simp [isExpired, h]
      · simp [isExpired, he]
        omega
    simp [getEffectiveTier, hpd, hexp]

/-- Witness for C1: each of the three branches evaluated at a concrete
state and time. -/
theorem getEffectiveTier_normalizing_read_witness :
    ((getEffectiveTier ⟨[], []⟩ "u" 5).1 = "Free" ∧
      lookupPlan (getEffectiveTier ⟨[], []⟩ "u" 5).2.userPlans "u" =
        some ⟨"Free", none⟩) ∧
    ((getEffectiveTier ⟨[], [("u", ⟨"Pro", some 3⟩)]⟩ "u" 5).1 = "Free" ∧
      lookupPlan (getEffectiveTier ⟨[], [("u", ⟨"Pro", some 3⟩)]⟩ "u" 5).2.userPlans "u" =
        some ⟨"Free", none⟩) ∧
    getEffectiveTier ⟨[], [("u", ⟨"Pro", some 9⟩)]⟩ "u" 5 =
      ("Pro", ⟨[], [("u", ⟨"Pro", some 9⟩)]⟩) :=
  ⟨(getEffectiveTier_normalizing_read ⟨[], []⟩ "u" 5).1 rfl,
   (getEffectiveTier_normalizing_read ⟨[], [("u", ⟨"Pro", some 3⟩)]⟩ "u" 5).2.1
      ⟨"Pro", some 3⟩ 3 rfl rfl (by decide) (by decide),
   (getEffectiveTier_normalizing_read ⟨[], [("u", ⟨"Pro", some 9⟩)]⟩ "u" 5).2.2
      ⟨"Pro", some 9⟩ rfl (Or.inr ⟨9, rfl, by decide⟩)⟩

/-- Claim C9: `decline` never changes any effective tier.  It leaves
the `userPlans` map untouched, so `getEffectiveTier` reports the same
tier for every identity before and after a decline. -/
theorem decline_preserves_effective_tier (s : LedgerState) (u v : String) (now : Nat) :
    (decline s u).userPlans = s.userPlans ∧
    (getEffectiveTier (decline s u) v now).1 = (getEffectiveTier s v now).1 := by
  refine ⟨rfl, ?_⟩
  cases h : lookupPlan s.userPlans v with
  | none => simp [getEffectiveTier, decline, h]
  | some pd =>
      by_cases he : isExpired pd now <;>
        simp [getEffectiveTier, decline, h, he]

/-- Claim C10: an unrecognized stored tier never grants access.  If
the stored plan string is none of Free, Plus, Pro, the `allowed` table
yields undefined and the JavaScript comparison is false, so
`checkAccess` is Denied for every required tier of the order. -/
theorem unknown_tier_denied (s : LedgerState) (u r : String) (pd : UserPlanRecord)
    (hpd : lookupPlan s.userPlans u = some pd)
    (hplan : pd.plan ≠ "Free" ∧ pd.plan ≠ "Plus" ∧ pd.plan ≠ "Pro")
    (hr : r = "Free" ∨ r = "Plus" ∨ r = "Pro") :
    checkAccess s u r = AccessResult.Denied := by
  have hrank : allowedRank pd.plan = none := by
    simp [allowedRank, hplan.1, hplan.2.1, hplan.2.2]
  simp [checkAccess, hpd, hrank, jsGE]

/-- Witness for C10: a record stored with the plan string Banana is
denied Pro access. -/
theorem unknown_tier_denied_witness :
    checkAccess ⟨[], [("u", ⟨"Banana", none⟩)]⟩ "u" "Pro" = AccessResult.Denied :=
  unknown_tier_denied ⟨[], [("u", ⟨"Banana", none⟩)]⟩ "u" "Pro" ⟨"Banana", none⟩
    rfl (by decide) (by decide)

/-- Counterexample to claim C2: a stored Pro record whose expiry (5)
has passed at time 10 is still granted Pro access, because the gate
never looks at the expiry field or the clock; the claim requires
Denied here. -/
theorem checkAccess_expired_allowed_cex :
    isExpired ⟨"Pro", some 5⟩ 10 = true ∧
    checkAccess ⟨[], [("u", ⟨"Pro", some 5⟩)]⟩ "u" "Pro" = AccessResult.Allowed :=
  ⟨rfl, rfl⟩

/-- Claim C2 (amended): the gate reads the raw stored tier, ignoring
expiry entirely — its verdict is unchanged under any change of the
expiry field.  The expiry rule is applied only by the normalizing read
`getEffectiveTier`; once that read has run on an expired record, the
identity is denied every tier above Free. -/
theorem checkAccess_raw_read (reqs : List UpgradeRequest)
    (m : List (String × UserPlanRecord)) (u p minPlan : String)
    (e₁ e₂ : Option Nat) (s : LedgerState) (now : Nat) :
    (checkAccess ⟨reqs, (u, ⟨p, e₁⟩) :: m⟩ u minPlan =
      checkAccess ⟨reqs, (u, ⟨p, e₂⟩) :: m⟩ u minPlan) ∧
    (∀ pd, lookupPlan s.userPlans u = some pd → isExpired pd now = true →
      minPlan = "Plus" ∨ minPlan = "Pro" →
      checkAccess (getEffectiveTier s u now).2 u minPlan = AccessResult.Denied) := by
  constructor
  · simp [checkAccess, lookupPlan]
  · intro pd hpd hexp hmin
    have h2 : (getEffectiveTier s u now).2.userPlans =
        (u, ⟨"Free", none⟩) :: s.userPlans := by
      simp [getEffectiveTier, hpd, hexp]
    rcases hmin with h | h <;>
      simp [checkAccess, h2, lookupPlan, allowedRank, jsGE, h]

/-- Witness for C2 (amended): concrete evaluations of both parts. -/
theorem checkAccess_raw_read_witness :
    (checkAccess ⟨[], [("u", ⟨"Pro", some 5⟩)]⟩ "u" "Plus" =
      checkAccess ⟨[], [("u", ⟨"Pro", some 99⟩)]⟩ "u" "Plus") ∧
    checkAccess (getEffectiveTier ⟨[], [("u", ⟨"Pro", some 5⟩)]⟩ "u" 10).2 "u" "Plus" =
      AccessResult.Denied :=
  ⟨(checkAccess_raw_read [] [] "u" "Pro" "Plus" (some 5) (some 99)
      ⟨[], [("u", ⟨"Pro", some 5⟩)]⟩ 10).1,
   (checkAccess_raw_read [] [] "u" "Pro" "Plus" (some 5) (some 99)
      ⟨[], [("u", ⟨"Pro", some 5⟩)]⟩ 10).2 ⟨"Pro", some 5⟩ rfl (by decide)
      (Or.inl rfl)⟩

/-- Counterexample to claim C3: for a stored Pro record expired at
time 10 the effective tier is Free, so the claimed equivalence
requires Denied for required tier Pro, yet the gate answers
Allowed. -/
theorem checkAccess_effective_iff_cex :
    (getEffectiveTier ⟨[], [("u", ⟨"Pro", some 5⟩)]⟩ "u" 10).1 = "Free" ∧
    checkAccess ⟨[], [("u", ⟨"Pro", some 5⟩)]⟩ "u" "Pro" = AccessResult.Allowed :=
  ⟨rfl, rfl⟩

/-- Claim C3 (amended): restricted to identities whose record is
absent or unexpired at the read time — where the stored and effective
tiers agree — the gate allows exactly when the effective tier is at
least the required tier in the order Free < Plus < Pro; and any
identity is allowed Pro immediately after an approve with tier
Pro. -/
theorem checkAccess_effective_iff (s : LedgerState) (u r : String) (now : Nat)
    (hunexp : lookupPlan s.userPlans u = none ∨
      ∃ pd, lookupPlan s.userPlans u = some pd ∧
        (pd.expiry = none ∨ ∃ e, pd.expiry = some e ∧ now ≤ e))
    (hr : r = "Free" ∨ r = "Plus" ∨ r = "Pro")
    (heff : (getEffectiveTier s u now).1 = "Free" ∨
      (getEffectiveTier s u now).1 = "Plus" ∨
      (getEffectiveTier s u now).1 = "Pro") :
    (checkAccess s u r = AccessResult.Allowed ↔
      specTierRank r ≤ specTierRank (getEffectiveTier s u now).1) ∧
    (∀ t : LedgerState, ∀ m : Nat,
      checkAccess (approve t u "Pro" m) u "Pro" = AccessResult.Allowed) := by
  constructor
  · rcases hunexp with h | ⟨pd, hpd, hun⟩
    · have heq : (getEffectiveTier s u now).1 = "Free" := by
        simp [getEffectiveTier, h]
      rw [heq]
      rcases hr with h1 | h1 | h1 <;>
        simp [checkAccess, h, h1, lookupPlan, allowedRank, jsGE, specTierRank]
    · have hexp : isExpired pd now = false := by
        rcases hun with h1 | ⟨e, he, hle⟩
        · simp [isExpired, h1]
        · simp [isExpired, he]
          omega
      have heq : (getEffectiveTier s u now).1 = pd.plan := by
        simp [getEffectiveTier, hpd, hexp]
      rw [heq] at heff ⊢
      rcases heff with h1 | h1 | h1 <;> rcases hr with h2 | h2 | h2 <;>
        simp [checkAccess, hpd, h1, h2, allowedRank, jsGE, specTierRank]
  · intro t m
    simp [checkAccess, approve, lookupPlan, allowedRank, jsGE]

/-- Witness for C3 (amended): an unexpired Plus record is allowed Plus
and, after an approve with Pro, allowed Pro. -/
theorem checkAccess_effective_iff_witness :
    (checkAccess ⟨[], [("u", ⟨"Plus", some 9⟩)]⟩ "u" "Plus" = AccessResult.Allowed ↔
      specTierRank "Plus" ≤
        specTierRank (getEffectiveTier ⟨[], [("u", ⟨"Plus", some 9⟩)]⟩ "u" 5).1) ∧
    checkAccess (approve ⟨[], []⟩ "u" "Pro" 0) "u" "Pro" = AccessResult.Allowed :=
  ⟨(checkAccess_effective_iff ⟨[], [("u", ⟨"Plus", some 9⟩)]⟩ "u" "Plus" 5
      (Or.inr ⟨⟨"Plus", some 9⟩, rfl, Or.inr ⟨9, rfl, by decide⟩⟩)
      (Or.inr (Or.inl rfl)) (Or.inr (Or.inl rfl))).1,
   (checkAccess_effective_iff ⟨[], [("u", ⟨"Plus", some 9⟩)]⟩ "u" "Plus" 5
      (Or.inr ⟨⟨"Plus", some 9⟩, rfl, Or.inr ⟨9, rfl, by decide⟩⟩)
      (Or.inr (Or.inl rfl)) (Or.inr (Or.inl rfl))).2 ⟨[], []⟩ 0⟩

/-- Claim C4: for an identity with a Pending request, `approve` stores
the caller-supplied tier (whatever tier was requested) with expiry
exactly thirty days after the call time, and the pending request is
resolved — no request of that identity remains pending.  Resolution is
represented in the code by removal from the `upgradeRequests`
array. -/
theorem approve_sets_caller_tier (s : LedgerState) (u t : String) (now : Nat)
    (h : ∃ r ∈ s.upgradeRequests, r.email = u) :
    lookupPlan (approve s u t now).userPlans u = some ⟨t, some (now + thirtyDays)⟩ ∧
    ∀ r ∈ (approve s u t now).upgradeRequests, r.email ≠ u := by
  refine ⟨by simp [approve, lookupPlan], ?_⟩
  intro r hr
  simp only [approve, List.mem_filter, decide_eq_true_eq] at hr
  exact hr.2

/-- Witness for C4: a Pending Plus request approved with tier Pro at
time 1000 stores Pro expiring at 1000 plus thirty days. -/
theorem approve_sets_caller_tier_witness :
    lookupPlan (approve ⟨[⟨"u", "Plus"⟩], []⟩ "u" "Pro" 1000).userPlans "u" =
      some ⟨"Pro", some (1000 + thirtyDays)⟩ ∧
    ∀ r ∈ (approve ⟨[⟨"u", "Plus"⟩], []⟩ "u" "Pro" 1000).upgradeRequests,
      r.email ≠ "u" :=
  approve_sets_caller_tier ⟨[⟨"u", "Plus"⟩], []⟩ "u" "Pro" 1000
    ⟨⟨"u", "Plus"⟩, by decide, rfl⟩

/-- Counterexample to claim C5: on an empty ledger (zero Pending
requests) `approve` does not fail with RequestNotFound — it succeeds
and writes a plan record, changing the ledger — and `decline` succeeds
as well. -/
theorem admin_no_pending_check_cex :
    (approveHandler ⟨"u", "Pro", none⟩ ⟨[], []⟩ 1000).1 ≠ ApiOutcome.RequestNotFound ∧
    lookupPlan (approveHandler ⟨"u", "Pro", none⟩ ⟨[], []⟩ 1000).2.userPlans "u" =
      some ⟨"Pro", some (1000 + thirtyDays)⟩ ∧
    (declineHandler ⟨"u", "Pro", none⟩ ⟨[], []⟩).1 ≠ ApiOutcome.RequestNotFound := by
  refine ⟨by decide, rfl, by decide⟩

/-- Claim C5 (amended): neither admin operation checks for a Pending
request.  With zero Pending requests for the identity, `approve` still
succeeds and overwrites the record with the given tier and a
thirty-day expiry, while `decline` succeeds and leaves the whole
ledger unchanged. -/
theorem admin_ops_no_pending_check (s : LedgerState) (req : AdminRequest) (now : Nat)
    (h : ∀ r ∈ s.upgradeRequests, r.email ≠ req.email) :
    (approveHandler req s now).1 = ApiOutcome.Success ∧
    lookupPlan (approveHandler req s now).2.userPlans req.email =
      some ⟨req.plan, some (now + thirtyDays)⟩ ∧
    declineHandler req s = (ApiOutcome.Success, s) := by
  refine ⟨rfl, by simp [approveHandler, approve, lookupPlan], ?_⟩
  have hfil : List.filter (fun r => r.email ≠ req.email) s.upgradeRequests =
      s.upgradeRequests := by
    rw [List.filter_eq_self]
    intro a ha
    simpa using h a ha
  have hd : decline s req.email = s := by
    unfold decline
    rw [hfil]
  unfold declineHandler
  rw [hd]

/-- Witness for C5 (amended): the empty ledger has no pending request
for the identity, yet approve writes a record and decline is the
identity mutation. -/
theorem admin_ops_no_pending_check_witness :
    (approveHandler ⟨"u", "Pro", none⟩ ⟨[], []⟩ 7).1 = ApiOutcome.Success ∧
    lookupPlan (approveHandler ⟨"u", "Pro", none⟩ ⟨[], []⟩ 7).2.userPlans "u" =
      some ⟨"Pro", some (7 + thirtyDays)⟩ ∧
    declineHandler ⟨"u", "Pro", none⟩ ⟨[], []⟩ =
      (ApiOutcome.Success, (⟨[], []⟩ : LedgerState)) :=
  admin_ops_no_pending_check ⟨[], []⟩ ⟨"u", "Pro", none⟩ 7 (by decide)

/-- Counterexample to claim C6: after the same identity submits Plus
and then Pro, both are listed pending in order, but one approve
removes them both — the later request does not stay Pending as the
claim requires. -/
theorem approve_resolves_all_cex :
    listPending (submitUpgrade (submitUpgrade ⟨[], []⟩ "u" "Plus") "u" "Pro") =
      [⟨"u", "Plus"⟩, ⟨"u", "Pro"⟩] ∧
    (approve (submitUpgrade (submitUpgrade ⟨[], []⟩ "u" "Plus") "u" "Pro")
      "u" "Pro" 0).upgradeRequests = [] := by
  refine ⟨rfl, rfl⟩

/-- Claim C6 (amended): duplicate submissions are all listed pending
in submission order, and a single approve or decline for the identity
removes every one of its pending requests, leaving none Pending. -/
theorem submit_twice_resolve_all (s : LedgerState) (u t₁ t₂ t : String) (now : Nat) :
    listPending (submitUpgrade (submitUpgrade s u t₁) u t₂) =
      s.upgradeRequests ++ [⟨u, t₁⟩, ⟨u, t₂⟩] ∧
    List.filter (fun r => r.email = u)
      (approve (submitUpgrade (submitUpgrade s u t₁) u t₂) u t now).upgradeRequests =
      [] ∧
    List.filter (fun r => r.email = u)
      (decline (submitUpgrade (submitUpgrade s u t₁) u t₂) u).upgradeRequests =
      [] := by
  refine ⟨by simp [listPending, submitUpgrade], ?_, ?_⟩
  · exact filter_email_of_removed _ u
  · exact filter_email_of_removed _ u

/-- Counterexample to claim C7: a call presenting no secret at all is
not answered Forbidden; it mutates the ledger (here it wipes the
pending request and writes a Pro record). -/
theorem admin_no_auth_cex :
    (approveHandler ⟨"u", "Pro", none⟩ ⟨[⟨"u", "Plus"⟩], []⟩ 0).1 ≠
      ApiOutcome.Forbidden ∧
    (approveHandler ⟨"u", "Pro", none⟩ ⟨[⟨"u", "Plus"⟩], []⟩ 0).2 ≠
      (⟨[⟨"u", "Plus"⟩], []⟩ : LedgerState) ∧
    (declineHandler ⟨"u", "Plus", none⟩ ⟨[⟨"u", "Plus"⟩], []⟩).1 ≠
      ApiOutcome.Forbidden ∧
    (declineHandler ⟨"u", "Plus", none⟩ ⟨[⟨"u", "Plus"⟩], []⟩).2 ≠
      (⟨[⟨"u", "Plus"⟩], []⟩ : LedgerState) := by
  refine ⟨by decide, by decide, by decide, by decide⟩

/-- Claim C7 (amended): the admin routes perform no authentication at
all.  Their behaviour is independent of whatever credential the call
presents, they never answer Forbidden, and every call delegates
directly to the ledger mutation. -/
theorem admin_ops_ignore_credentials (req₁ req₂ : AdminRequest) (s : LedgerState)
    (now : Nat) (he : req₁.email = req₂.email) (hp : req₁.plan = req₂.plan) :
    approveHandler req₁ s now = approveHandler req₂ s now ∧
    declineHandler req₁ s = declineHandler req₂ s ∧
    (approveHandler req₁ s now).1 ≠ ApiOutcome.Forbidden ∧
    (declineHandler req₁ s).1 ≠ ApiOutcome.Forbidden ∧
    (approveHandler req₁ s now).2 = approve s req₁.email req₁.plan now ∧
    (declineHandler req₁ s).2 = decline s req₁.email := by
  refine ⟨?_, ?_, by simp [approveHandler], by simp [declineHandler], rfl, rfl⟩
  · simp [approveHandler, he, hp]
  · simp [declineHandler, he]

/-- Witness for C7 (amended): a call with the right secret and a call
with no secret behave identically. -/
theorem admin_ops_ignore_credentials_witness :
    approveHandler ⟨"u", "Pro", some "s3cr3t"⟩ ⟨[], []⟩ 0 =
      approveHandler ⟨"u", "Pro", none⟩ ⟨[], []⟩ 0 ∧
    declineHandler ⟨"u", "Pro", some "s3cr3t"⟩ ⟨[], []⟩ =
      declineHandler ⟨"u", "Pro", none⟩ ⟨[], []⟩ ∧
    (approveHandler ⟨"u", "Pro", some "s3cr3t"⟩ ⟨[], []⟩ 0).1 ≠ ApiOutcome.Forbidden ∧
    (declineHandler ⟨"u", "Pro", some "s3cr3t"⟩ ⟨[], []⟩).1 ≠ ApiOutcome.Forbidden ∧
    (approveHandler ⟨"u", "Pro", some "s3cr3t"⟩ ⟨[], []⟩ 0).2 =
      approve ⟨[], []⟩ "u" "Pro" 0 ∧
    (declineHandler ⟨"u", "Pro", some "s3cr3t"⟩ ⟨[], []⟩).2 =
      decline ⟨[], []⟩ "u" :=
  admin_ops_ignore_credentials ⟨"u", "Pro", some "s3cr3t"⟩ ⟨"u", "Pro", none⟩
    ⟨[], []⟩ 0 rfl rfl

/-- Counterexample to claim C8: a submission with the tier Banana —
outside the upgradeable tiers — does not fail with InvalidTier; it is
appended to the pending list. -/
theorem submit_no_validation_cex :
    (submitHandler ⟨[], []⟩ "u" "Banana").1 ≠ ApiOutcome.InvalidTier ∧
    (submitHandler ⟨[], []⟩ "u" "Banana").2.upgradeRequests =
      [⟨"u", "Banana"⟩] := by
  refine ⟨by decide, rfl⟩

/-- Claim C8 (amended): `submitUpgrade` performs no tier validation.
For every requested tier, valid or not, it succeeds, appends exactly
one pending request carrying that tier, and leaves `userPlans`
untouched. -/
theorem submitUpgrade_appends_unvalidated (s : LedgerState) (u t : String) :
    (submitHandler s u t).1 = ApiOutcome.Success ∧
    (submitHandler s u t).2.upgradeRequests = s.upgradeRequests ++ [⟨u, t⟩] ∧
    (submitHandler s u t).2.userPlans = s.userPlans :=
  ⟨rfl, rfl, rfl⟩

end CodeGoldenAI
